import Mathlib

/-!
Verification of the Spring_Mass_Damper notebook
(src/projects/Spring_Mass_Damper/notebooks/Untitled.ipynb) against its
natural-language specification.

The notebook is declarative configuration over the DeepXDE framework.  Its own
code consists of: the function ode_system, the (syntactically incomplete)
geometry cell assigning T, the two initial conditions ic1 and ic2, the data
object, the network configuration, and the compile/train calls.  Each of those
pieces is embedded below, line by line, from the notebook source.
-/

/-! ## The environment of global names used by ode_system

The body of ode_system references the global names c, k, F and m.  No cell of
the notebook assigns any of them (see notebook_defined_names below), so the
embedding threads them explicitly as an environment record. -/

/-- The scalar constants m, c, k and the forcing function F that the body of
ode_system refers to.  They appear as free global names in the notebook and
are never assigned by any cell. -/
structure Env (K : Type) where
  m : K
  c : K
  k : K
  F : K → K

/-- Embedding of the notebook function, per row of the batch:

    def ode_system(t, y):
        x, v = y[:, 0:1], y[:, 1:2]
        dx_dt = v
        dv_dt = (-c * v - k * x + F(t)) / m
        return [dx_dt, dv_dt]

For one sampled time t the tensor row y is the pair (x, v) of network outputs;
the function returns the list of the two computed expressions.  Note that the
source computes no derivative of y: both returned entries are built only from
the pointwise values t, x, v. -/
def ode_system {K : Type} [Field K] (env : Env K) (t : K) (y : K × K) : List K :=
  let x := y.1
  let v := y.2
  let dx_dt := v
  let dv_dt := (-env.c * v - env.k * x + env.F t) / env.m
  [dx_dt, dv_dt]

/-- The residual pair that the specification says ode_system returns, written
from the spec text (for comparison with the source function):
  r1 = dx/dt - v
  r2 = m * dv/dt + c * v + k * x - F(t)
dxdt and dvdt stand for the derivatives of the two network outputs with
respect to t. -/
def residual_spec {K : Type} [Field K] (env : Env K) (t x v dxdt dvdt : K) : List K :=
  [dxdt - v, env.m * dvdt + env.c * v + env.k * x - env.F t]

/-- The network outputs y = (x, v) satisfy the governing equation of the
notebook, m * x'' + c * x' + k * x = F(t), at time t, with the velocity
output consistent with the displacement output (x' = v). -/
def satisfies_governing (env : Env ℝ) (y : ℝ → ℝ × ℝ) (t : ℝ) : Prop :=
  deriv (fun s => (y s).1) t = (y t).2 ∧
  env.m * deriv (deriv (fun s => (y s).1)) t
    + env.c * deriv (fun s => (y s).1) t + env.k * (y t).1 = env.F t

/-- A concrete environment used to evaluate ode_system on rational inputs:
m = 1, c = 1/5, k = 1, F = 0 (the spec's example constants; the notebook
itself never assigns values to these names). -/
def envQ : Env ℚ := ⟨1, 1 / 5, 1, fun _ => 0⟩

/-! ## Name resolution in the notebook -/

/-- All names assigned at the top level by any code cell of the notebook, in
order of appearance: ode_system, T, geom, ic1, ic2, data, net, model,
losshistory, train_state.  (The first code cell is empty; no import statement
and no constant assignment occurs anywhere.) -/
def notebook_defined_names : List String :=
  ["ode_system", "T", "geom", "ic1", "ic2", "data", "net",
   "model", "losshistory", "train_state"]

/-- The free (global) names referenced by the body of ode_system, in order of
first use: c, k, F, m.  The parameters t, y and the locals x, v, dx_dt, dv_dt
are bound inside the function and are not listed. -/
def ode_system_free_names : List String := ["c", "k", "F", "m"]

/-! ## The geometry cell -/

/-- First line of the geometry cell, exactly as it appears in the source:
the assignment to T with nothing after the equals sign. -/
def T_cell_line : String := "T = "

/-- Characters after the first equals sign of a source line, if any. -/
def rhsChars : List Char → Option (List Char)
  | [] => none
  | c :: cs => if c = '=' then some cs else rhsChars cs

/-- A character sequence consisting only of spaces. -/
def isBlank (cs : List Char) : Bool := cs.all (fun c => c = ' ')

/-- The right-hand side of an assignment line, when it is nonempty. -/
def assignedRhs (line : String) : Option (List Char) :=
  match rhsChars line.data with
  | none => none
  | some cs => if isBlank cs then none else some cs

/-- Digit-string parser used to give the placeholder a value if it had one. -/
def parseDigits : List Char → Nat → Option Nat
  | [], acc => some acc
  | c :: cs, acc =>
      if c.isDigit then parseDigits cs (acc * 10 + (c.toNat - 48)) else none

/-- Numeric value of a nonempty digit sequence. -/
def parseNat : List Char → Option Nat
  | [] => none
  | c :: cs => parseDigits (c :: cs) 0

/-- The value the geometry cell assigns to the time horizon T: absent, because
the source line reads `T = ` with an empty right-hand side. -/
def T_value : Option Nat :=
  match assignedRhs T_cell_line with
  | none => none
  | some cs => parseNat cs

/-- The time interval dde.geometry.TimeDomain(0, T). -/
structure TimeDomain where
  t0 : ℚ
  t1 : ℚ
deriving DecidableEq

/-- Embedding of `geom = dde.geometry.TimeDomain(0, T)`: constructing the
domain requires a value for T, which the cell does not provide. -/
def geom : Option TimeDomain := T_value.map (fun n => ⟨0, (n : ℚ)⟩)

/-! ## Initial conditions -/

/-- Embedding of a dde.icbc.IC constraint: the geometry it is attached to, the
target-value function, the boundary-selection predicate (taking the point and
the framework's on_initial flag), and the output component it constrains. -/
structure IC where
  geometry : Option TimeDomain
  func : ℚ → ℚ
  on_initial : ℚ → Bool → Bool
  component : Nat

/-- ic1 = dde.icbc.IC(geom, lambda t: 0, lambda _, on_initial: on_initial, component=0) -/
def ic1 : IC := ⟨geom, fun _ => 0, fun _ oi => oi, 0⟩

/-- ic2 = dde.icbc.IC(geom, lambda t: 1, lambda _, on_initial: on_initial, component=1) -/
def ic2 : IC := ⟨geom, fun _ => 1, fun _ oi => oi, 1⟩

/-! ## Data object and network -/

/-- Embedding of the dde.data.PDE object: geometry, residual function,
initial/boundary conditions, and the two point-count parameters. -/
structure PDEData where
  geometry : Option TimeDomain
  residual_fn : ℚ → ℚ × ℚ → List ℚ
  icbcs : List IC
  num_domain : Nat
  num_boundary : Nat

/-- data = dde.data.PDE(geom, ode_system, [ic1, ic2], num_domain=1000, num_boundary=2),
parameterized by the environment supplying the undefined globals of
ode_system. -/
def data (env : Env ℚ) : PDEData :=
  ⟨geom, ode_system env, [ic1, ic2], 1000, 2⟩

/-- Embedding of the dde.nn.FNN configuration: layer sizes, activation name,
and weight-initialization scheme name. -/
structure FNN where
  layer_sizes : List Nat
  activation : String
  kernel_initializer : String

/-- net = dde.nn.FNN([1] + [50] * 3 + [2], "tanh", "Glorot uniform") -/
def net : FNN := ⟨[1] ++ List.replicate 3 50 ++ [2], "tanh", "Glorot uniform"⟩

/-! ## Theorems -/

/-- C1: refuted on the code.  ode_system does not return the residuals
r1 = dx/dt - v and r2 = m*dv/dt + c*v + k*x - F(t); it returns the pointwise
right-hand side [v, (-c*v - k*x + F(t))/m] of the first-order system.  With
the spec's example constants (m = 1, c = 1/5, k = 1, F = 0), at t = 0 with
network outputs (x, v) = (0, 1) and true derivatives dx/dt = 1, dv/dt = 0
(the network y(t) = (t, 1)), the code returns [1, -1/5] while the spec's
residuals are [0, 1/5]. -/
theorem ode_system_returns_rhs_not_residual :
    ode_system envQ 0 (0, 1) = [1, -(1 / 5)] ∧
    residual_spec envQ 0 0 1 1 0 = [0, 1 / 5] ∧
    ode_system envQ 0 (0, 1) ≠ residual_spec envQ 0 0 1 1 0 := by
  refine ⟨?_, ?_, ?_⟩ <;> norm_num [ode_system, residual_spec, envQ]

/-- C2: refuted on the code.  The value ode_system returns is not zero exactly
when the network outputs satisfy the governing equation: the network
y(t) = (t, 1) satisfies m*x'' + c*x' + k*x = F(t) (with x' = v) at t = 0 for
the environment m = 1, c = 0, k = 0, F = 0, yet ode_system evaluated at that
time on the network's outputs returns [1, 0], which is not [0, 0]. -/
theorem governing_holds_but_ode_system_nonzero :
    satisfies_governing ⟨1, 0, 0, fun _ => 0⟩ (fun t => (t, 1)) 0 ∧
    ode_system (⟨1, 0, 0, fun _ => 0⟩ : Env ℝ) 0 ((fun t : ℝ => (t, 1)) 0) ≠ [0, 0] := by
  refine ⟨⟨?_, ?_⟩, ?_⟩
  · show deriv (fun s : ℝ => s) 0 = 1
    exact congrFun deriv_id'' 0
  · show (1 : ℝ) * deriv (deriv (fun s : ℝ => s)) 0
        + 0 * deriv (fun s : ℝ => s) 0 + 0 * ((fun t : ℝ => (t, (1 : ℝ))) 0).1 = 0
    rw [deriv_id'']
    simp
  · show ode_system (⟨1, 0, 0, fun _ => 0⟩ : Env ℝ) 0 (0, 1) ≠ [0, 0]
    simp [ode_system]

/-- C3: refuted on the code.  ode_system performs no automatic differentiation:
its result depends only on the pointwise values of t and y.  The constant
network y1(t) = (0, 1) and the network y2(t) = (t, 1) have the same output at
t = 0 but different derivatives dx/dt there (0 versus 1), and ode_system
returns the same value for both in every environment. -/
theorem ode_system_ignores_derivatives :
    (fun _ : ℝ => ((0 : ℝ), (1 : ℝ))) 0 = (fun t : ℝ => (t, (1 : ℝ))) 0 ∧
    deriv (fun s : ℝ => ((fun _ : ℝ => ((0 : ℝ), (1 : ℝ))) s).1) 0 ≠
      deriv (fun s : ℝ => ((fun t : ℝ => (t, (1 : ℝ))) s).1) 0 ∧
    ∀ env : Env ℝ, ode_system env 0 ((fun _ : ℝ => ((0 : ℝ), (1 : ℝ))) 0) =
      ode_system env 0 ((fun t : ℝ => (t, (1 : ℝ))) 0) := by
  refine ⟨rfl, ?_, fun env => rfl⟩
  show deriv (fun _ : ℝ => (0 : ℝ)) 0 ≠ deriv (fun s : ℝ => s) 0
  have h1 : deriv (fun _ : ℝ => (0 : ℝ)) 0 = 0 := deriv_const 0 0
  have h2 : deriv (fun s : ℝ => s) 0 = 1 := congrFun deriv_id'' 0
  rw [h1, h2]
  norm_num

/-- C4: refuted on the code.  None of the free names c, k, F, m referenced by
the body of ode_system is assigned by any cell of the notebook, so evaluating
ode_system raises a NameError in Python. -/
theorem ode_system_free_names_undefined :
    ode_system_free_names.all
      (fun n => !(notebook_defined_names.contains n)) = true := by
  decide

/-- C5: confirmed.  The geometry cell's assignment `T = ` has an empty
right-hand side, so the time horizon has no value and the time domain
TimeDomain(0, T) cannot be constructed. -/
theorem T_unset_geom_not_constructible : T_value = none ∧ geom = none := by
  constructor
  · decide
  · decide

/-- C6: confirmed.  The target function of ic1 returns 0 for every input and
constrains component 0; the target function of ic2 returns 1 for every input
and constrains component 1. -/
theorem ic_targets_and_components :
    (∀ t : ℚ, ic1.func t = 0) ∧ (∀ t : ℚ, ic2.func t = 1) ∧
    ic1.component = 0 ∧ ic2.component = 1 :=
  ⟨fun _ => rfl, fun _ => rfl, rfl, rfl⟩

/-- C7: confirmed.  The network configuration has layer sizes
[1, 50, 50, 50, 2] (input 1, three hidden layers of width 50, output 2),
the tanh activation, and the Glorot uniform initialization scheme. -/
theorem net_configuration :
    net.layer_sizes = [1, 50, 50, 50, 2] ∧
    net.activation = "tanh" ∧ net.kernel_initializer = "Glorot uniform" :=
  ⟨rfl, rfl, rfl⟩

/-- C8: confirmed.  The data object is configured with 1000 domain collocation
points and 2 boundary points, whatever values the undefined constants take. -/
theorem data_point_counts :
    ∀ env : Env ℚ, (data env).num_domain = 1000 ∧ (data env).num_boundary = 2 :=
  fun _ => ⟨rfl, rfl⟩

/-- C10: confirmed.  ic1 and ic2 carry the identical boundary-selection
predicate, which returns the framework's on_initial flag unchanged for every
point; hence a point is selected by either constraint exactly when the flag is
true, and the two constraints select the same points. -/
theorem ic_predicates_identical :
    ic1.on_initial = ic2.on_initial ∧
    (∀ (p : ℚ) (oi : Bool), ic1.on_initial p oi = oi) ∧
    (∀ (p : ℚ) (oi : Bool), (ic1.on_initial p oi = true ↔ oi = true)) :=
  ⟨rfl, fun _ _ => rfl, fun _ _ => Iff.rfl⟩
